import Mathlib

/-!
Verification development for the ByteBeast behavioral state engine
(`state/mood_engine.py`, `core/models.py`, `core/config.py`,
`services/state_service.py`).

Python floats are embedded as rationals (ℚ), Python ints as ℕ, Python
strings as `String`.  A configuration dictionary section is embedded as a
structure of `Option ℚ` fields: `some v` means the key is present with
value `v`, `none` means the key is absent.  Indexing `d['k']` (which
raises `KeyError` when absent) is `dictGet`; `d.get('k', default)` is
`dictGetD`.  Operations that may raise `KeyError` return
`Except String _`.  Python's short-circuiting `and`/`or` over
possibly-raising operands are `pyAnd`/`pyOr`.
-/

/-- `thresholds` configuration section (keys read by the mood engine). -/
structure Thresholds where
  temp_hot : Option ℚ
  temp_cold : Option ℚ
  lux_dark : Option ℚ
  lux_bright : Option ℚ
  motion_active_g : Option ℚ
  pressure_stable : Option ℚ
deriving Repr, DecidableEq

/-- `power` configuration section (key read by the mood engine). -/
structure PowerCfg where
  low_voltage : Option ℚ
deriving Repr, DecidableEq

/-- `needs` configuration section. -/
structure NeedsCfg where
  hunger_base : Option ℚ
  rest_base : Option ℚ
  social_base : Option ℚ
  hygiene_base : Option ℚ
  drift_rate : Option ℚ
deriving Repr, DecidableEq

/-- `evolution` configuration section. -/
structure EvolutionCfg where
  progression_rate : Option ℚ
  stage_goal : Option ℚ
deriving Repr, DecidableEq

/-- The configuration object (`core/config.py` `Config`), restricted to the
sections the state engine reads.  A section whose dict is missing is a
structure all of whose fields are `none` (Python `get_section` returns `{}`). -/
structure Config where
  thresholds : Thresholds
  power : PowerCfg
  needs : NeedsCfg
  evolution : EvolutionCfg
deriving Repr, DecidableEq

/-- Python `d[key]`: `KeyError` when the key is absent. -/
def dictGet (key : String) (o : Option ℚ) : Except String ℚ :=
  match o with
  | some v => Except.ok v
  | none => Except.error ("KeyError: " ++ key)

/-- Python `d.get(key, default)`. -/
def dictGetD (o : Option ℚ) (d : ℚ) : ℚ := o.getD d

/-- Python short-circuit `and` over operands that may raise. -/
def pyAnd (a b : Except String Bool) : Except String Bool := do
  let x ← a
  if x then b else pure false

/-- Python short-circuit `or` over operands that may raise. -/
def pyOr (a b : Except String Bool) : Except String Bool := do
  let x ← a
  if x then pure true else b

/-- `EnvFeatures` (core/models.py): one tick's environmental reading. -/
structure EnvFeatures where
  lux : ℚ
  cct_k : ℚ
  temp_c : ℚ
  rh : ℚ
  pressure_hpa : ℚ
  pressure_trend : ℚ
  motion_rms_g : ℚ
  shake_events : ℕ
  heading_deg : ℚ
  roll : ℚ
  pitch : ℚ
  yaw : ℚ
  vbat : ℚ
  ibat : ℚ
  pwr_w : ℚ
  charging : Bool
  ssid_fingerprint : String
  timestamp : ℚ
deriving Repr, DecidableEq

/-- The `needs` dict of a `Beast`, whose key set is fixed at construction;
field order is the dict's insertion (= iteration) order. -/
structure Needs where
  hunger : ℚ
  rest : ℚ
  social : ℚ
  hygiene : ℚ
deriving Repr, DecidableEq

/-- The `traits` dict of a `Beast`; field order is the iteration order. -/
structure Traits where
  playful : ℚ
  needy : ℚ
  rebellious : ℚ
  social : ℚ
  explorer : ℚ
deriving Repr, DecidableEq

/-- `Beast` (core/models.py).  `last_fingerprint`/`last_lux` embed the
dynamic attributes `_last_fingerprint`/`_last_lux` consulted via
`getattr`/`hasattr` in `_detect_novelty`; no code in the repository ever
assigns them, and the dataclass constructor does not either, so a
constructed beast carries `none` for both (`hasattr` false). -/
structure Beast where
  mood : String
  needs : Needs
  traits : Traits
  evolution_path : String
  evolution_stage : ℕ
  evolution_prog : ℚ
  energy : ℚ
  last_updated : ℚ
  last_fingerprint : Option String
  last_lux : Option ℚ
deriving Repr, DecidableEq

/-- `Beast.__post_init__` (core/models.py lines 61-74): clamp needs to
[0,100], traits to [0,1], stage to [1,4], prog to [0,1], energy to [0,100]. -/
def Beast.postInit (b : Beast) : Beast :=
  { b with
    needs :=
      { hunger := max 0 (min 100 b.needs.hunger)
        rest := max 0 (min 100 b.needs.rest)
        social := max 0 (min 100 b.needs.social)
        hygiene := max 0 (min 100 b.needs.hygiene) }
    traits :=
      { playful := max 0 (min 1 b.traits.playful)
        needy := max 0 (min 1 b.traits.needy)
        rebellious := max 0 (min 1 b.traits.rebellious)
        social := max 0 (min 1 b.traits.social)
        explorer := max 0 (min 1 b.traits.explorer) }
    evolution_stage := max 1 (min 4 b.evolution_stage)
    evolution_prog := max 0 (min 1 b.evolution_prog)
    energy := max 0 (min 100 b.energy) }

/-- `create_default_beast` (mood_engine.py lines 375-397); `now` stands for
`time.time()`. -/
def create_default_beast (now : ℚ) : Beast :=
  Beast.postInit
    { mood := "calm"
      needs := { hunger := 75, rest := 60, social := 50, hygiene := 80 }
      traits :=
        { playful := 1/2, needy := 3/10, rebellious := 1/5,
          social := 2/5, explorer := 3/5 }
      evolution_path := "sun"
      evolution_stage := 1
      evolution_prog := 0
      energy := 100
      last_updated := now
      last_fingerprint := none
      last_lux := none }

/-- `MoodEngine._is_environmental_extreme` (mood_engine.py lines 78-81). -/
def is_environmental_extreme (cfg : Config) (env : EnvFeatures) : Bool :=
  decide (|env.pressure_trend| > (dictGetD cfg.thresholds.pressure_stable 2) * 2) ||
  decide (env.rh > 90) || decide (env.rh < 10)

/-- `MoodEngine._is_sustained_condition` (mood_engine.py lines 83-91).
`beast.needs.get('social', 50)` always finds the key (fixed key set). -/
def is_sustained_condition (beast : Beast) (condition : String) : Bool :=
  if condition == "sleepy" then decide (beast.energy < 40)
  else if condition == "bored" then decide (beast.needs.social < 40)
  else false

/-- `MoodEngine._is_comfortable_temperature` (mood_engine.py lines 93-95).
Python's chained comparison `a <= t <= b` evaluates the second bound only
when the first comparison holds, so `temp_hot` is looked up only then. -/
def is_comfortable_temperature (cfg : Config) (t : ℚ) : Except String Bool := do
  let c ← dictGet "temp_cold" cfg.thresholds.temp_cold
  if c + 5 ≤ t then do
    let h ← dictGet "temp_hot" cfg.thresholds.temp_hot
    pure (decide (t ≤ h - 5))
  else
    pure false

/-- `MoodEngine._detect_novelty` (mood_engine.py lines 97-116).
`getattr(beast, '_last_fingerprint', '')` is `.getD ""`; the
`hasattr(beast, '_last_lux')` branch runs only when `last_lux` is `some`. -/
def detect_novelty (env : EnvFeatures) (beast : Beast) : Bool :=
  if env.ssid_fingerprint ≠ beast.last_fingerprint.getD "" then true
  else if env.shake_events > 2 then true
  else
    match beast.last_lux with
    | some lastLux =>
        if |env.lux - lastLux| / max lastLux 1 > 1/2 then true else false
    | none => false

/-- `MoodEngine._is_environment_unstable` (mood_engine.py lines 118-121). -/
def is_environment_unstable (cfg : Config) (env : EnvFeatures) : Bool :=
  decide (|env.pressure_trend| > dictGetD cfg.thresholds.pressure_stable 2) ||
  decide (env.shake_events > 3)

/-- `any(need < x for need in beast.needs.values())`. -/
def any_need_lt (n : Needs) (x : ℚ) : Bool :=
  decide (n.hunger < x) || decide (n.rest < x) ||
  decide (n.social < x) || decide (n.hygiene < x)

/-- `MoodEngine.infer_mood` (mood_engine.py lines 25-76): ordered guarded
rules, first match wins; threshold lookups happen in Python's evaluation
order, short-circuiting as the source does. -/
def infer_mood (cfg : Config) (env : EnvFeatures) (beast : Beast) :
    Except String String := do
  let tempHot ← dictGet "temp_hot" cfg.thresholds.temp_hot
  if env.temp_c ≥ tempHot then return "hot"
  let tempCold ← dictGet "temp_cold" cfg.thresholds.temp_cold
  if env.temp_c ≤ tempCold then return "cold"
  let lowVoltage ← dictGet "low_voltage" cfg.power.low_voltage
  if env.vbat < lowVoltage ∨ beast.energy < 20 ∨
      is_environmental_extreme cfg env = true then return "sick"
  let sleepyGuard ← pyAnd
    (do pure (decide (env.lux < (← dictGet "lux_dark" cfg.thresholds.lux_dark))))
    (pyAnd
      (do pure (decide (env.motion_rms_g <
        (← dictGet "motion_active_g" cfg.thresholds.motion_active_g) / 4)))
      (pure (is_sustained_condition beast "sleepy")))
  if sleepyGuard then return "sleepy"
  let playfulGuard ← pyOr
    (pure (decide (env.shake_events > 0)))
    (do pure (decide (env.motion_rms_g >
      (← dictGet "motion_active_g" cfg.thresholds.motion_active_g))))
  if playfulGuard then return "playful"
  let happyGuard ← pyAnd
    (do pure (decide (env.lux > (← dictGet "lux_bright" cfg.thresholds.lux_bright))))
    (pyAnd (is_comfortable_temperature cfg env.temp_c)
      (pure (decide (beast.energy > 60))))
  if happyGuard then return "happy"
  if detect_novelty env beast then return "curious"
  let boredGuard ← pyAnd
    (do pure (decide (env.motion_rms_g <
      (← dictGet "motion_active_g" cfg.thresholds.motion_active_g) / 2)))
    (pure (is_sustained_condition beast "bored"))
  if boredGuard then return "bored"
  if is_environment_unstable cfg env = true ∨ any_need_lt beast.needs 30 = true then
    return "anxious"
  return "calm"

/-- `MoodEngine._calculate_drift_rate` (mood_engine.py lines 163-190). -/
def calculate_drift_rate (cfg : Config) (need : String) (base_rate : ℚ)
    (env : EnvFeatures) (beast : Beast) : Except String ℚ := do
  if need == "hunger" then
    let ma ← dictGet "motion_active_g" cfg.thresholds.motion_active_g
    if env.motion_rms_g > ma then pure (base_rate * (3/2)) else pure base_rate
  else if need == "rest" then
    let lb ← dictGet "lux_bright" cfg.thresholds.lux_bright
    let r1 := if env.lux > lb then base_rate * (6/5) else base_rate
    let ma ← dictGet "motion_active_g" cfg.thresholds.motion_active_g
    if env.motion_rms_g > ma then pure (r1 * (13/10)) else pure r1
  else if need == "social" then
    if detect_novelty env beast then pure (base_rate * (4/5)) else pure base_rate
  else if need == "hygiene" then
    let comfortable ← is_comfortable_temperature cfg env.temp_c
    if comfortable then pure base_rate else pure (base_rate * (6/5))
  else
    pure base_rate

/-- `MoodEngine._apply_environmental_satisfaction` (mood_engine.py
lines 192-207). -/
def apply_environmental_satisfaction (cfg : Config) (needs : Needs)
    (env : EnvFeatures) : Except String Needs := do
  let restGuard ← pyAnd
    (do pure (decide (env.lux < (← dictGet "lux_dark" cfg.thresholds.lux_dark))))
    (do pure (decide (env.motion_rms_g <
      (← dictGet "motion_active_g" cfg.thresholds.motion_active_g) / 4)))
  let needs :=
    if restGuard then { needs with rest := min 100 (needs.rest + 1/2) } else needs
  let hygieneGuard ← pyAnd (is_comfortable_temperature cfg env.temp_c)
    (pure (decide (40 < env.rh) && decide (env.rh < 70)))
  let needs :=
    if hygieneGuard then { needs with hygiene := min 100 (needs.hygiene + 1/5) }
    else needs
  pure needs

/-- Caregiver `actions`: an arbitrary string-keyed dict, as in the source. -/
def Actions := List (String × ℚ)

/-- `need in actions` membership test. -/
def actionsHas (a : Actions) (k : String) : Bool :=
  (List.find? (fun p => p.1 == k) a).isSome

/-- `actions[need]` for a key known to be present, defaulting (unused) to 0. -/
def actionsGet (a : Actions) (k : String) : ℚ :=
  ((List.find? (fun p => p.1 == k) a).map Prod.snd).getD 0

/-- One iteration of the drift loop body of `update_needs`
(mood_engine.py lines 142-151) for a single need: drift then action top-up. -/
def drift_one (cfg : Config) (need : String) (base_rate : ℚ) (env : EnvFeatures)
    (beast : Beast) (actions : Actions) (hours_passed : ℚ) (value : ℚ) :
    Except String ℚ := do
  let drift_rate ← calculate_drift_rate cfg need base_rate env beast
  let drift_cfg ← dictGet "drift_rate" cfg.needs.drift_rate
  let value := value - drift_rate * hours_passed * drift_cfg
  if actionsHas actions need then pure (value + actionsGet actions need)
  else pure value

/-- `MoodEngine.update_needs` (mood_engine.py lines 123-161); `current_time`
stands for `time.time()` at the call.  The base-rate dict is built first
(lines 134-139, indexing raises on a missing key), then the loop runs over
{hunger, rest, social, hygiene} in insertion order, then environmental
satisfaction, then the clamp to [0,100] and the `last_updated` update. -/
def update_needs (cfg : Config) (beast : Beast) (env : EnvFeatures)
    (actions : Actions) (current_time : ℚ) : Except String Beast := do
  let hours_passed := (current_time - beast.last_updated) / 3600
  let hungerBase ← dictGet "hunger_base" cfg.needs.hunger_base
  let restBase ← dictGet "rest_base" cfg.needs.rest_base
  let socialBase ← dictGet "social_base" cfg.needs.social_base
  let hygieneBase ← dictGet "hygiene_base" cfg.needs.hygiene_base
  let hunger ← drift_one cfg "hunger" hungerBase env beast actions hours_passed
    beast.needs.hunger
  let rest ← drift_one cfg "rest" restBase env beast actions hours_passed
    beast.needs.rest
  let social ← drift_one cfg "social" socialBase env beast actions hours_passed
    beast.needs.social
  let hygiene ← drift_one cfg "hygiene" hygieneBase env beast actions hours_passed
    beast.needs.hygiene
  let needs ← apply_environmental_satisfaction cfg
    { hunger := hunger, rest := rest, social := social, hygiene := hygiene } env
  let needs : Needs :=
    { hunger := max 0 (min 100 needs.hunger)
      rest := max 0 (min 100 needs.rest)
      social := max 0 (min 100 needs.social)
      hygiene := max 0 (min 100 needs.hygiene) }
  pure { beast with needs := needs, last_updated := current_time }

/-- `MoodEngine.tick_traits` (mood_engine.py lines 209-247). -/
def tick_traits (cfg : Config) (env : EnvFeatures) (beast : Beast)
    (actions : Actions) : Except String Beast := do
  let lr : ℚ := 1/100
  let playfulGuard ← pyOr
    (do pure (decide (env.motion_rms_g >
      (← dictGet "motion_active_g" cfg.thresholds.motion_active_g))))
    (pure (decide (env.shake_events > 0) || actionsHas actions "play"))
  let t := beast.traits
  let t := if playfulGuard then { t with playful := t.playful + lr } else t
  let avg_need :=
    (beast.needs.hunger + beast.needs.rest + beast.needs.social +
      beast.needs.hygiene) / 4
  let t :=
    if avg_need < 40 then { t with needy := t.needy + lr }
    else if avg_need > 70 then { t with needy := t.needy - lr / 2 }
    else t
  let t :=
    if any_need_lt beast.needs 20 then { t with rebellious := t.rebellious + lr }
    else t
  let t :=
    if actionsHas actions "social_interaction" then
      { t with social := t.social + lr }
    else t
  let t :=
    if detect_novelty env beast then { t with explorer := t.explorer + lr }
    else t
  let t : Traits :=
    { playful := max 0 (min 1 t.playful)
      needy := max 0 (min 1 t.needy)
      rebellious := max 0 (min 1 t.rebellious)
      social := max 0 (min 1 t.social)
      explorer := max 0 (min 1 t.explorer) }
  pure { beast with traits := t }

/-- The exposure-score dict of `update_evolution` (mood_engine.py
lines 253-286), as an association list in insertion order; the threshold
lookups happen in Python's (short-circuiting) evaluation order. -/
def exposure_scores (cfg : Config) (env : EnvFeatures) :
    Except String (List (String × ℚ)) := do
  let sunGuard ← pyAnd (pure (decide (env.lux > 1000)))
    (pyAnd (pure (decide (env.temp_c > 20)))
      (do pure (decide (env.motion_rms_g >
        (← dictGet "motion_active_g" cfg.thresholds.motion_active_g) / 2))))
  let sun : ℚ := if sunGuard then 1 else 0
  let shadowGuard ← pyAnd
    (do pure (decide (env.lux < (← dictGet "lux_dark" cfg.thresholds.lux_dark))))
    (do pure (decide (env.motion_rms_g <
      (← dictGet "motion_active_g" cfg.thresholds.motion_active_g) / 4)))
  let shadow : ℚ := if shadowGuard then 1 else 0
  let tempHot ← dictGet "temp_hot" cfg.thresholds.temp_hot
  let ember : ℚ := if env.temp_c > tempHot then 1 else 0
  let tempCold ← dictGet "temp_cold" cfg.thresholds.temp_cold
  let frost : ℚ := if env.temp_c < tempCold then 1 else 0
  let ma ← dictGet "motion_active_g" cfg.thresholds.motion_active_g
  let social : ℚ := if env.motion_rms_g > ma then 1/2 else 0
  let lone : ℚ := if env.motion_rms_g > ma then 0 else 1/2
  pure [("sun", sun), ("shadow", shadow), ("ember", ember), ("frost", frost),
    ("social", social), ("lone", lone)]

/-- Python `max(d.items(), key=lambda x: x[1])`: the first item of maximal
value in iteration order (later items replace only on strictly greater). -/
def maxPair (l : List (String × ℚ)) : String × ℚ :=
  match l with
  | [] => ("", 0)
  | x :: xs => xs.foldl (fun best y => if y.2 > best.2 then y else best) x

/-- Python `max(d.values())`. -/
def maxVal (l : List (String × ℚ)) : ℚ :=
  match l with
  | [] => 0
  | x :: xs => xs.foldl (fun best y => max best y.2) x.2

/-- Python `d.get(key, 0.0)` on the score dict. -/
def scoreLookup (l : List (String × ℚ)) (k : String) : ℚ :=
  ((List.find? (fun p => p.1 == k) l).map Prod.snd).getD 0

/-- `MoodEngine.update_evolution` (mood_engine.py lines 249-307). -/
def update_evolution (cfg : Config) (env : EnvFeatures) (beast : Beast) :
    Except String Beast := do
  let scores ← exposure_scores cfg env
  let current_score := scoreLookup scores beast.evolution_path
  let max_path := maxPair scores
  let path :=
    if max_path.2 > current_score + 1/5 then max_path.1 else beast.evolution_path
  let progression_rate := dictGetD cfg.evolution.progression_rate (1/100)
  let prog := beast.evolution_prog + progression_rate * max (maxVal scores) (1/10)
  let stage_goal := dictGetD cfg.evolution.stage_goal 1
  if prog ≥ stage_goal ∧ beast.evolution_stage < 4 then
    pure { beast with
      evolution_path := path
      evolution_stage := beast.evolution_stage + 1
      evolution_prog := 0 }
  else
    pure { beast with evolution_path := path, evolution_prog := prog }

/-- A task descriptor produced by `generate_tasks`. -/
structure TaskDescriptor where
  category : String
  action : String
  description : String
  reward : List (String × ℚ)
deriving Repr, DecidableEq

/-- The need-deficit task for one need (mood_engine.py lines 314-343):
emitted when the value is below 40. -/
def needTask (need : String) (value : ℚ) : List TaskDescriptor :=
  if value < 40 then
    if need == "hunger" then
      [{ category := "care", action := "feed",
         description := "Feed your ByteBeast", reward := [("hunger", 20)] }]
    else if need == "rest" then
      [{ category := "environment", action := "quiet_time",
         description := "Find a quiet spot for 15 minutes",
         reward := [("rest", 15)] }]
    else if need == "social" then
      [{ category := "social", action := "meet_peer",
         description := "Take your ByteBeast to meet others",
         reward := [("social", 25)] }]
    else if need == "hygiene" then
      [{ category := "care", action := "clean",
         description := "Keep your ByteBeast in comfortable conditions",
         reward := [("hygiene", 20)] }]
    else []
  else []

/-- `MoodEngine.generate_tasks` (mood_engine.py lines 309-372): need tasks in
needs-dict iteration order, then trait tasks, then the environment task,
truncated to the first three.  Reads no configuration. -/
def generate_tasks (beast : Beast) (env : EnvFeatures) : List TaskDescriptor :=
  let tasks :=
    needTask "hunger" beast.needs.hunger ++ needTask "rest" beast.needs.rest ++
    needTask "social" beast.needs.social ++ needTask "hygiene" beast.needs.hygiene
  let tasks := tasks ++
    (if beast.traits.explorer > 7/10 then
      [{ category := "exploration", action := "new_location",
         description := "Take your ByteBeast somewhere new",
         reward := [("explorer_xp", 10)] }]
    else [])
  let tasks := tasks ++
    (if beast.traits.playful > 7/10 then
      [{ category := "activity", action := "play_session",
         description := "Have an active play session (shake/move around)",
         reward := [("playful_xp", 10)] }]
    else [])
  let tasks := tasks ++
    (if env.lux < 100 then
      [{ category := "environment", action := "bright_spot",
         description := "Find a bright spot for 10 minutes",
         reward := [("energy", 10)] }]
    else [])
  tasks.take 3

/-- The per-tick update pipeline of `StateService.run`
(services/state_service.py lines 84-91) in the documented stage order
mood → needs → traits → evolution.  (The source's line 88 passes
`tick_traits` its two data arguments in swapped positions, which in Python
raises `AttributeError` and is caught by the service's per-tick handler;
the pipeline is embedded here in the documented order with the engine
operations as defined above.) -/
def run_tick (cfg : Config) (env : EnvFeatures) (beast : Beast)
    (current_time : ℚ) : Except String Beast := do
  let mood ← infer_mood cfg env beast
  let beast := { beast with mood := mood }
  let beast ← update_needs cfg beast env [] current_time
  let beast ← tick_traits cfg env beast []
  update_evolution cfg env beast

/-- Follows the spec's words (§4.5): the generated task actions in the
stated order — one per need below 40 over {hunger, rest, social, hygiene}
(feed, quiet_time, meet_peer, clean), an exploration task when explorer
trait > 0.7, an activity task when playful trait > 0.7, a brightness task
when lux < 100 — before truncation to three. -/
def spec_task_actions (beast : Beast) (env : EnvFeatures) : List String :=
  (if beast.needs.hunger < 40 then ["feed"] else []) ++
  (if beast.needs.rest < 40 then ["quiet_time"] else []) ++
  (if beast.needs.social < 40 then ["meet_peer"] else []) ++
  (if beast.needs.hygiene < 40 then ["clean"] else []) ++
  (if beast.traits.explorer > 7/10 then ["new_location"] else []) ++
  (if beast.traits.playful > 7/10 then ["play_session"] else []) ++
  (if env.lux < 100 then ["bright_spot"] else [])

/-- `n` consecutive `update_evolution` ticks on the same snapshot. -/
def iter_update_evolution (cfg : Config) (env : EnvFeatures) :
    ℕ → Beast → Except String Beast
  | 0, b => Except.ok b
  | n + 1, b => update_evolution cfg env b >>= iter_update_evolution cfg env n

/-- `evolution_prog` after `n` ticks (0 when a tick raised). -/
def prog_after (cfg : Config) (env : EnvFeatures) (b : Beast) (n : ℕ) : ℚ :=
  match iter_update_evolution cfg env n b with
  | Except.ok b' => b'.evolution_prog
  | Except.error _ => 0

/-- A concrete fully-populated configuration used for witnesses and
counterexamples (values consistent with the repository's tests, e.g.
`thresholds.temp_hot = 30.0`). -/
def cfgDefault : Config :=
  { thresholds :=
      { temp_hot := some 30, temp_cold := some 10, lux_dark := some 50,
        lux_bright := some 5000, motion_active_g := some (1/5),
        pressure_stable := some 2 }
    power := { low_voltage := some (17/5) }
    needs :=
      { hunger_base := some 2, rest_base := some (3/2), social_base := some 1,
        hygiene_base := some (1/2), drift_rate := some 1 }
    evolution := { progression_rate := some (1/100), stage_goal := some 1 } }

/-- `cfgDefault` with `thresholds['temp_hot']` absent. -/
def cfgNoTempHot : Config :=
  { cfgDefault with
    thresholds := { cfgDefault.thresholds with temp_hot := none } }

/-- `cfgDefault` with `needs['hunger_base']` absent. -/
def cfgNoHungerBase : Config :=
  { cfgDefault with needs := { cfgDefault.needs with hunger_base := none } }

/-- `cfgDefault` with the whole `evolution` section absent. -/
def cfgNoEvolution : Config :=
  { cfgDefault with evolution := { progression_rate := none, stage_goal := none } }

/-- A neutral snapshot (moderate temperature/light, low motion, no shakes,
empty fingerprint): every exposure score is 0 except `lone = 0.5`. -/
def envCalm : EnvFeatures :=
  { lux := 1000, cct_k := 5000, temp_c := 20, rh := 50, pressure_hpa := 1013,
    pressure_trend := 0, motion_rms_g := 1/10, shake_events := 0,
    heading_deg := 180, roll := 0, pitch := 0, yaw := 0, vbat := 4,
    ibat := 100, pwr_w := 2/5, charging := false, ssid_fingerprint := "",
    timestamp := 0 }

/-- A sun-path-favoring snapshot (spec §8: temp_c=25, lux=8000, motion=0.3). -/
def envSun : EnvFeatures :=
  { envCalm with temp_c := 25, lux := 8000, motion_rms_g := 3/10 }

/-- A hot snapshot (temp_c=35, above `cfgDefault`'s hot threshold 30). -/
def envHot : EnvFeatures := { envCalm with temp_c := 35 }

/-- A valid beast at the final evolution stage with full progression. -/
def beastStage4 : Beast :=
  { create_default_beast 0 with evolution_stage := 4, evolution_prog := 1 }

/-- A beast whose `evolution_path` is not one of the six recognized paths. -/
def beastUnknown : Beast :=
  { create_default_beast 0 with evolution_path := "mystery" }

/-- A beast with needs {hunger:20, rest:80, social:80, hygiene:80}. -/
def beastHungry : Beast :=
  { create_default_beast 0 with
    needs := { hunger := 20, rest := 80, social := 80, hygiene := 80 } }

/-- `exposure_scores cfgDefault envSun`. -/
def scoresSun : List (String × ℚ) :=
  [("sun", 1), ("shadow", 0), ("ember", 0), ("frost", 0),
   ("social", 1/2), ("lone", 0)]

/-- `exposure_scores cfgDefault envCalm`. -/
def scoresCalm : List (String × ℚ) :=
  [("sun", 0), ("shadow", 0), ("ember", 0), ("frost", 0),
   ("social", 0), ("lone", 1/2)]

/-- `update_evolution cfgDefault envSun (create_default_beast 0)`. -/
def beastSun1 : Beast := { create_default_beast 0 with evolution_prog := 1/100 }

/-- `update_evolution cfgDefault envCalm beastUnknown`. -/
def beastUnknownAfter : Beast :=
  { beastUnknown with evolution_path := "lone", evolution_prog := 1/200 }

theorem dictGet_some (k : String) (v : ℚ) : dictGet k (some v) = Except.ok v := rfl

theorem ok_bind {α β : Type} (a : α) (f : α → Except String β) :
    (Except.ok a >>= f : Except String β) = f a := rfl

theorem error_bind {α β : Type} (e : String) (f : α → Except String β) :
    (Except.error e >>= f : Except String β) = Except.error e := rfl

theorem pure_ok {α : Type} (a : α) : (pure a : Except String α) = Except.ok a := rfl

theorem pyAnd_ok (x : Bool) (b : Except String Bool) :
    pyAnd (Except.ok x) b = if x then b else pure false := rfl

theorem pyOr_ok (x : Bool) (b : Except String Bool) :
    pyOr (Except.ok x) b = if x then pure true else b := rfl

theorem except_bind_ok {α β : Type} {x : Except String α} {f : α → Except String β}
    {y : β} (h : x >>= f = Except.ok y) : ∃ a, x = Except.ok a ∧ f a = Except.ok y := by
  cases x with
  | ok a => exact ⟨a, rfl, h⟩
  | error e => exact absurd h (fun hc => Except.noConfusion hc)

theorem update_needs_frame (cfg : Config) (b : Beast) (env : EnvFeatures)
    (acts : Actions) (t : ℚ) (b' : Beast)
    (h : update_needs cfg b env acts t = Except.ok b') :
    b'.energy = b.energy ∧ b'.mood = b.mood := by
  simp only [update_needs] at h
  obtain ⟨v1, -, h⟩ := except_bind_ok h
  obtain ⟨v2, -, h⟩ := except_bind_ok h
  obtain ⟨v3, -, h⟩ := except_bind_ok h
  obtain ⟨v4, -, h⟩ := except_bind_ok h
  obtain ⟨v5, -, h⟩ := except_bind_ok h
  obtain ⟨v6, -, h⟩ := except_bind_ok h
  obtain ⟨v7, -, h⟩ := except_bind_ok h
  obtain ⟨v8, -, h⟩ := except_bind_ok h
  obtain ⟨v9, -, h⟩ := except_bind_ok h
  simp only [pure_ok, Except.ok.injEq] at h
  subst h
  exact ⟨rfl, rfl⟩

theorem tick_traits_frame (cfg : Config) (env : EnvFeatures) (b : Beast)
    (acts : Actions) (b' : Beast) (h : tick_traits cfg env b acts = Except.ok b') :
    b'.energy = b.energy ∧ b'.mood = b.mood := by
  simp only [tick_traits] at h
  obtain ⟨v1, -, h⟩ := except_bind_ok h
  simp only [pure_ok, Except.ok.injEq] at h
  subst h
  exact ⟨rfl, rfl⟩

theorem update_evolution_frame (cfg : Config) (env : EnvFeatures) (b : Beast)
    (b' : Beast) (h : update_evolution cfg env b = Except.ok b') :
    b'.energy = b.energy ∧ b'.mood = b.mood ∧ b'.needs = b.needs ∧
    b'.traits = b.traits := by
  simp only [update_evolution] at h
  obtain ⟨scores, -, h⟩ := except_bind_ok h
  split at h <;> simp only [pure_ok, Except.ok.injEq] at h <;> subst h <;>
    exact ⟨rfl, rfl, rfl, rfl⟩

theorem maxPair_foldl_le (xs : List (String × ℚ)) (acc : String × ℚ) :
    acc.2 ≤ (xs.foldl (fun best y => if y.2 > best.2 then y else best) acc).2 ∧
    ∀ x ∈ xs, x.2 ≤ (xs.foldl (fun best y => if y.2 > best.2 then y else best) acc).2 := by
  induction xs generalizing acc with
  | nil => exact ⟨le_refl _, by simp⟩
  | cons a as ih =>
    simp only [List.foldl_cons]
    have hacc : acc.2 ≤ (if a.2 > acc.2 then a else acc).2 := by
      split
      · exact le_of_lt (by assumption)
      · exact le_refl _
    have ha : a.2 ≤ (if a.2 > acc.2 then a else acc).2 := by
      split
      · exact le_refl _
      · exact le_of_not_lt (by assumption)
    refine ⟨le_trans hacc (ih _).1, ?_⟩
    intro x hx
    rcases List.mem_cons.mp hx with rfl | hx
    · exact le_trans ha (ih _).1
    · exact (ih _).2 x hx

theorem maxPair_foldl_mem (xs : List (String × ℚ)) (acc : String × ℚ) :
    xs.foldl (fun best y => if y.2 > best.2 then y else best) acc = acc ∨
    xs.foldl (fun best y => if y.2 > best.2 then y else best) acc ∈ xs := by
  induction xs generalizing acc with
  | nil => exact Or.inl rfl
  | cons a as ih =>
    simp only [List.foldl_cons]
    rcases ih (if a.2 > acc.2 then a else acc) with h | h
    · rw [h]
      split
      · exact Or.inr (List.mem_cons_self _ _)
      · exact Or.inl rfl
    · exact Or.inr (List.mem_cons_of_mem _ h)

theorem maxPair_le (l : List (String × ℚ)) (x : String × ℚ) (hx : x ∈ l) :
    x.2 ≤ (maxPair l).2 := by
  cases l with
  | nil => simp at hx
  | cons a as =>
    rcases List.mem_cons.mp hx with rfl | hx
    · exact (maxPair_foldl_le as x).1
    · exact (maxPair_foldl_le as a).2 x hx

theorem maxPair_mem (l : List (String × ℚ)) (h : l ≠ []) : maxPair l ∈ l := by
  cases l with
  | nil => exact absurd rfl h
  | cons a as =>
    show as.foldl (fun best y => if y.2 > best.2 then y else best) a ∈ a :: as
    rcases maxPair_foldl_mem as a with h' | h'
    · rw [h']
      exact List.mem_cons_self _ _
    · exact List.mem_cons_of_mem _ h'

theorem update_evolution_ok (cfg : Config) (env : EnvFeatures) (b : Beast)
    (scores : List (String × ℚ)) (h : exposure_scores cfg env = Except.ok scores) :
    update_evolution cfg env b = Except.ok (
      if b.evolution_prog + dictGetD cfg.evolution.progression_rate (1/100) *
          max (maxVal scores) (1/10) ≥ dictGetD cfg.evolution.stage_goal 1 ∧
          b.evolution_stage < 4 then
        { b with
          evolution_path :=
            if (maxPair scores).2 > scoreLookup scores b.evolution_path + 1/5 then
              (maxPair scores).1
            else b.evolution_path
          evolution_stage := b.evolution_stage + 1
          evolution_prog := 0 }
      else
        { b with
          evolution_path :=
            if (maxPair scores).2 > scoreLookup scores b.evolution_path + 1/5 then
              (maxPair scores).1
            else b.evolution_path
          evolution_prog := b.evolution_prog + dictGetD cfg.evolution.progression_rate (1/100) *
            max (maxVal scores) (1/10) }) := by
  simp only [update_evolution, h, ok_bind]
  split <;> rfl

theorem exposure_scores_isOk (cfg : Config) (env : EnvFeatures) (ma ld th tc : ℚ)
    (hma : cfg.thresholds.motion_active_g = some ma)
    (hld : cfg.thresholds.lux_dark = some ld)
    (hth : cfg.thresholds.temp_hot = some th)
    (htc : cfg.thresholds.temp_cold = some tc) :
    ∃ scores, exposure_scores cfg env = Except.ok scores := by
  simp only [exposure_scores, hma, hld, hth, htc, dictGet_some, ok_bind, pure_ok,
    pyAnd_ok]
  split_ifs <;> simp only [ok_bind, pure_ok] <;> exact ⟨_, rfl⟩

theorem exposure_scores_shape (cfg : Config) (env : EnvFeatures)
    (scores : List (String × ℚ)) (h : exposure_scores cfg env = Except.ok scores) :
    ∃ s1 s2 s3 s4 : ℚ,
      scores = [("sun", s1), ("shadow", s2), ("ember", s3), ("frost", s4),
        ("social", 1/2), ("lone", 0)] ∨
      scores = [("sun", s1), ("shadow", s2), ("ember", s3), ("frost", s4),
        ("social", 0), ("lone", 1/2)] := by
  simp only [exposure_scores] at h
  obtain ⟨g1, -, h⟩ := except_bind_ok h
  obtain ⟨g2, -, h⟩ := except_bind_ok h
  obtain ⟨vth, -, h⟩ := except_bind_ok h
  obtain ⟨vtc, -, h⟩ := except_bind_ok h
  obtain ⟨vma, -, h⟩ := except_bind_ok h
  simp only [pure_ok, Except.ok.injEq] at h
  subst h
  by_cases hm : env.motion_rms_g > vma
  · exact ⟨_, _, _, _, Or.inl (by rw [if_pos hm, if_pos hm])⟩
  · exact ⟨_, _, _, _, Or.inr (by rw [if_neg hm, if_neg hm])⟩

theorem exposure_scores_calm :
    exposure_scores cfgDefault envCalm = Except.ok scoresCalm := by
  norm_num [exposure_scores, cfgDefault, envCalm, scoresCalm, dictGet_some,
    ok_bind, pure_ok, pyAnd_ok]

theorem exposure_scores_sun :
    exposure_scores cfgDefault envSun = Except.ok scoresSun := by
  norm_num [exposure_scores, cfgDefault, envSun, envCalm, scoresSun, dictGet_some,
    ok_bind, pure_ok, pyAnd_ok]

/-- C1: the spec claims every update keeps `evolution_prog ∈ [0,1]`, in
particular that `update_evolution` does so even at `evolution_stage = 4`.
The code violates this: on a valid stage-4 beast with `evolution_prog = 1`
(a fixed point of the model's own `__post_init__` clamping), one
`update_evolution` tick on a neutral snapshot leaves
`evolution_prog = 201/200 > 1` — the increment is applied but the
stage-advance reset is guarded by `stage < 4` and there is no clamp. -/
theorem c1_stage4_prog_exceeds_one :
    (update_evolution cfgDefault envCalm beastStage4).map Beast.evolution_prog =
      Except.ok (201/200) ∧
    ¬ ((201 : ℚ)/200 ≤ 1) ∧
    Beast.postInit beastStage4 = beastStage4 ∧
    beastStage4.evolution_stage = 4 ∧ beastStage4.evolution_prog = 1 := by
  refine ⟨?_, by norm_num, ?_, rfl, rfl⟩
  · rw [update_evolution_ok cfgDefault envCalm beastStage4 scoresCalm
      exposure_scores_calm]
    norm_num [Except.map, scoresCalm, maxVal, maxPair, scoreLookup, dictGetD,
      cfgDefault, beastStage4, create_default_beast, Beast.postInit,
      List.foldl, List.find?]
  · norm_num [Beast.postInit, beastStage4, create_default_beast]

/-- C3 counterexample: with `thresholds['temp_hot']` absent, `infer_mood`
raises `KeyError` instead of completing with a built-in default; with
`needs['hunger_base']` absent, `update_needs` does too. -/
theorem c3_counterexample :
    infer_mood cfgNoTempHot envCalm (create_default_beast 0) =
      Except.error "KeyError: temp_hot" ∧
    update_needs cfgNoHungerBase (create_default_beast 0) envCalm [] 3600 =
      Except.error "KeyError: hunger_base" :=
  ⟨rfl, rfl⟩

/-- C4 counterexample: a beast with the unrecognized path "mystery" does not
keep it — the unknown path scores 0.0 via `dict.get`, the best score on a
neutral snapshot is `lone = 0.5 > 0.0 + 0.2`, so `update_evolution`
switches the path to "lone". -/
theorem c4_counterexample :
    (update_evolution cfgDefault envCalm beastUnknown).map Beast.evolution_path =
      Except.ok "lone" ∧
    beastUnknown.evolution_path = "mystery" ∧ ("lone" : String) ≠ "mystery" := by
  refine ⟨?_, rfl, by decide⟩
  rw [update_evolution_ok cfgDefault envCalm beastUnknown scoresCalm
    exposure_scores_calm]
  norm_num [Except.map, scoresCalm, maxVal, maxPair, scoreLookup, dictGetD,
    cfgDefault, beastUnknown, create_default_beast, Beast.postInit,
    List.foldl, List.find?,
    show (("sun" : String) == "mystery") = false from rfl,
    show (("shadow" : String) == "mystery") = false from rfl,
    show (("ember" : String) == "mystery") = false from rfl,
    show (("frost" : String) == "mystery") = false from rfl,
    show (("social" : String) == "mystery") = false from rfl,
    show (("lone" : String) == "mystery") = false from rfl]

theorem update_evolution_path_eq (cfg : Config) (env : EnvFeatures) (b : Beast)
    (scores : List (String × ℚ)) (b' : Beast)
    (h1 : exposure_scores cfg env = Except.ok scores)
    (h2 : update_evolution cfg env b = Except.ok b') :
    b'.evolution_path =
      (if (maxPair scores).2 > scoreLookup scores b.evolution_path + 1/5 then
        (maxPair scores).1
      else b.evolution_path) := by
  rw [update_evolution_ok cfg env b scores h1, Except.ok.injEq] at h2
  subst h2
  split <;> rfl

theorem update_evolution_prog_eq (cfg : Config) (env : EnvFeatures) (b : Beast)
    (scores : List (String × ℚ)) (b' : Beast)
    (h1 : exposure_scores cfg env = Except.ok scores)
    (h2 : update_evolution cfg env b = Except.ok b') :
    b'.evolution_prog =
      (if b.evolution_prog + dictGetD cfg.evolution.progression_rate (1/100) *
            max (maxVal scores) (1/10) ≥ dictGetD cfg.evolution.stage_goal 1 ∧
            b.evolution_stage < 4 then
        0
      else
        b.evolution_prog + dictGetD cfg.evolution.progression_rate (1/100) *
          max (maxVal scores) (1/10)) := by
  rw [update_evolution_ok cfg env b scores h1, Except.ok.injEq] at h2
  subst h2
  split <;> simp_all

/-- C2: `update_evolution` switches the evolution path to the first
argmax-scoring path exactly when its score this tick exceeds the current
path's score by more than 0.2; when the margin is at most 0.2 the current
path is retained unchanged. -/
theorem c2_evolution_hysteresis (cfg : Config) (env : EnvFeatures) (b : Beast)
    (scores : List (String × ℚ)) (b' : Beast)
    (h1 : exposure_scores cfg env = Except.ok scores)
    (h2 : update_evolution cfg env b = Except.ok b') :
    (b'.evolution_path =
      (if (maxPair scores).2 > scoreLookup scores b.evolution_path + 1/5 then
        (maxPair scores).1
      else b.evolution_path)) ∧
    ((maxPair scores).2 ≤ scoreLookup scores b.evolution_path + 1/5 →
      b'.evolution_path = b.evolution_path) := by
  have hp := update_evolution_path_eq cfg env b scores b' h1 h2
  exact ⟨hp, fun hle => by rw [hp, if_neg (not_lt.mpr hle)]⟩

theorem update_evolution_sun :
    update_evolution cfgDefault envSun (create_default_beast 0) =
      Except.ok beastSun1 := by
  rw [update_evolution_ok cfgDefault envSun (create_default_beast 0) scoresSun
    exposure_scores_sun]
  norm_num [scoresSun, maxVal, maxPair, scoreLookup, dictGetD, cfgDefault,
    beastSun1, create_default_beast, Beast.postInit, List.foldl, List.find?,
    show (("sun" : String) == "sun") = true from rfl]

/-- C2 witness: on a sun-favoring snapshot with current path `sun` (score 1,
the maximum), the margin is 0 ≤ 0.2 and the path is retained. -/
theorem c2_witness :
    beastSun1.evolution_path = (create_default_beast 0).evolution_path :=
  (c2_evolution_hysteresis cfgDefault envSun (create_default_beast 0) scoresSun
    beastSun1 exposure_scores_sun update_evolution_sun).2
    (by norm_num [scoresSun, maxPair, scoreLookup, create_default_beast,
      Beast.postInit, List.foldl, List.find?,
      show (("sun" : String) == "sun") = true from rfl])

/-- C4 (amended): on a beast whose `evolution_path` is not one of the six
recognized paths, `update_evolution` completes without raising (the unknown
path is scored 0.0 by `dict.get`), but the path is not kept: the best score
each tick is at least 0.5 > 0.0 + 0.2, so the path always switches to the
first argmax-scoring recognized path. -/
theorem c4_amended_unknown_path_switches (cfg : Config) (env : EnvFeatures)
    (b : Beast) (scores : List (String × ℚ)) (b' : Beast)
    (h1 : exposure_scores cfg env = Except.ok scores)
    (hpath : b.evolution_path ∉
      (["sun", "shadow", "ember", "frost", "social", "lone"] : List String))
    (h2 : update_evolution cfg env b = Except.ok b') :
    b'.evolution_path = (maxPair scores).1 ∧
    b'.evolution_path ∈
      (["sun", "shadow", "ember", "frost", "social", "lone"] : List String) ∧
    b'.evolution_path ≠ b.evolution_path := by
  have hp := update_evolution_path_eq cfg env b scores b' h1 h2
  obtain ⟨s1, s2, s3, s4, hs⟩ := exposure_scores_shape cfg env scores h1
  simp only [List.mem_cons, List.not_mem_nil, or_false, not_or] at hpath
  obtain ⟨hn1, hn2, hn3, hn4, hn5, hn6⟩ := hpath
  have hb1 : (("sun" : String) == b.evolution_path) = false :=
    beq_eq_false_iff_ne.mpr (Ne.symm hn1)
  have hb2 : (("shadow" : String) == b.evolution_path) = false :=
    beq_eq_false_iff_ne.mpr (Ne.symm hn2)
  have hb3 : (("ember" : String) == b.evolution_path) = false :=
    beq_eq_false_iff_ne.mpr (Ne.symm hn3)
  have hb4 : (("frost" : String) == b.evolution_path) = false :=
    beq_eq_false_iff_ne.mpr (Ne.symm hn4)
  have hb5 : (("social" : String) == b.evolution_path) = false :=
    beq_eq_false_iff_ne.mpr (Ne.symm hn5)
  have hb6 : (("lone" : String) == b.evolution_path) = false :=
    beq_eq_false_iff_ne.mpr (Ne.symm hn6)
  have hcur : scoreLookup scores b.evolution_path = 0 := by
    rcases hs with rfl | rfl <;>
      simp [scoreLookup, List.find?, hb1, hb2, hb3, hb4, hb5, hb6]
  have hhalf : (1 : ℚ)/2 ≤ (maxPair scores).2 := by
    rcases hs with rfl | rfl
    · exact maxPair_le _ ("social", 1/2) (by simp)
    · exact maxPair_le _ ("lone", 1/2) (by simp)
  have hgt : (maxPair scores).2 > scoreLookup scores b.evolution_path + 1/5 := by
    rw [hcur]
    linarith
  rw [hp, if_pos hgt]
  have hmem : maxPair scores ∈ scores := by
    rcases hs with rfl | rfl <;> exact maxPair_mem _ (by simp)
  have hkey : (maxPair scores).1 ∈
      (["sun", "shadow", "ember", "frost", "social", "lone"] : List String) := by
    rcases hs with rfl | rfl <;> simp only [List.mem_cons, List.not_mem_nil,
      or_false, Prod.ext_iff] at hmem <;>
      rcases hmem with ⟨h, -⟩ | ⟨h, -⟩ | ⟨h, -⟩ | ⟨h, -⟩ | ⟨h, -⟩ | ⟨h, -⟩ <;>
      rw [h] <;> simp
  refine ⟨rfl, hkey, ?_⟩
  simp only [List.mem_cons, List.not_mem_nil, or_false] at hkey
  rcases hkey with h | h | h | h | h | h <;> rw [h]
  · exact Ne.symm hn1
  · exact Ne.symm hn2
  · exact Ne.symm hn3
  · exact Ne.symm hn4
  · exact Ne.symm hn5
  · exact Ne.symm hn6

theorem update_evolution_calm_unknown :
    update_evolution cfgDefault envCalm beastUnknown =
      Except.ok beastUnknownAfter := by
  rw [update_evolution_ok cfgDefault envCalm beastUnknown scoresCalm
    exposure_scores_calm]
  norm_num [scoresCalm, maxVal, maxPair, scoreLookup, dictGetD, cfgDefault,
    beastUnknown, beastUnknownAfter, create_default_beast, Beast.postInit,
    List.foldl, List.find?,
    show (("sun" : String) == "mystery") = false from rfl,
    show (("shadow" : String) == "mystery") = false from rfl,
    show (("ember" : String) == "mystery") = false from rfl,
    show (("frost" : String) == "mystery") = false from rfl,
    show (("social" : String) == "mystery") = false from rfl,
    show (("lone" : String) == "mystery") = false from rfl]

/-- C4 witness: the beast with unknown path "mystery" on a neutral snapshot
ends with path "lone" (the argmax), a recognized path different from the
one it had. -/
theorem c4_witness :
    beastUnknownAfter.evolution_path = (maxPair scoresCalm).1 ∧
    beastUnknownAfter.evolution_path ∈
      (["sun", "shadow", "ember", "frost", "social", "lone"] : List String) ∧
    beastUnknownAfter.evolution_path ≠ beastUnknown.evolution_path :=
  c4_amended_unknown_path_switches cfgDefault envCalm beastUnknown scoresCalm
    beastUnknownAfter exposure_scores_calm (by decide)
    update_evolution_calm_unknown

/-- C3 (amended): only the keys read via `.get` fall back to built-in
defaults — `pressure_stable` (2.0), `progression_rate` (0.01), `stage_goal`
(1.0); keys read by dict indexing (e.g. `temp_hot`, `lux_dark`,
`motion_active_g`, `hunger_base`) raise `KeyError` when absent and fail the
tick.  With the indexed threshold keys present, `update_evolution`
completes the tick even when the whole `evolution` section is absent, and
coincides with running it under the built-in defaults 0.01 and 1.0. -/
theorem c3_amended_get_defaults (cfg : Config) (env : EnvFeatures) (b : Beast)
    (ma ld th tc : ℚ)
    (hma : cfg.thresholds.motion_active_g = some ma)
    (hld : cfg.thresholds.lux_dark = some ld)
    (hth : cfg.thresholds.temp_hot = some th)
    (htc : cfg.thresholds.temp_cold = some tc)
    (hpr : cfg.evolution.progression_rate = none)
    (hsg : cfg.evolution.stage_goal = none) :
    (∃ b', update_evolution cfg env b = Except.ok b') ∧
    update_evolution cfg env b =
      update_evolution
        { cfg with
          evolution := { progression_rate := some (1/100), stage_goal := some 1 } }
        env b := by
  obtain ⟨scores, hscores⟩ :=
    exposure_scores_isOk cfg env ma ld th tc hma hld hth htc
  have hscores2 : exposure_scores
      { cfg with
        evolution := { progression_rate := some (1/100), stage_goal := some 1 } }
      env = Except.ok scores := hscores
  constructor
  · exact ⟨_, update_evolution_ok cfg env b scores hscores⟩
  · rw [update_evolution_ok cfg env b scores hscores,
      update_evolution_ok _ env b scores hscores2]
    simp [dictGetD, hpr, hsg]

/-- C3 witness: with the `evolution` section absent but thresholds present,
`update_evolution` runs exactly as with the built-in defaults. -/
theorem c3_witness :
    update_evolution cfgNoEvolution envCalm (create_default_beast 0) =
      update_evolution
        { cfgNoEvolution with
          evolution := { progression_rate := some (1/100), stage_goal := some 1 } }
        envCalm (create_default_beast 0) :=
  (c3_amended_get_defaults cfgNoEvolution envCalm (create_default_beast 0)
    (1/5) 50 30 10 rfl rfl rfl rfl rfl rfl).2

/-- C5: whenever the snapshot temperature is at least the configured hot
threshold, `infer_mood` returns "hot", regardless of every other snapshot
field and every beast field (first rule of the ordered guarded list). -/
theorem c5_hot_rule_priority (cfg : Config) (env : EnvFeatures) (b : Beast)
    (th : ℚ) (hth : cfg.thresholds.temp_hot = some th) (h : env.temp_c ≥ th) :
    infer_mood cfg env b = Except.ok "hot" := by
  simp only [infer_mood, hth, dictGet_some, ok_bind]
  rw [if_pos h]
  rfl

/-- C5 witness: temp_c = 35 with hot threshold 30 yields "hot" on an
otherwise bright, calm snapshot. -/
theorem c5_witness :
    infer_mood cfgDefault envHot (create_default_beast 0) = Except.ok "hot" :=
  c5_hot_rule_priority cfgDefault envHot (create_default_beast 0) 30 rfl
    (by norm_num [envHot, envCalm])

theorem update_evolution_sun_step (b : Beast) (hpath : b.evolution_path = "sun")
    (hprog : b.evolution_prog + 1/100 < 1) :
    update_evolution cfgDefault envSun b =
      Except.ok { b with evolution_prog := b.evolution_prog + 1/100 } := by
  rw [update_evolution_ok cfgDefault envSun b scoresSun exposure_scores_sun]
  have hmax : maxPair scoresSun = ("sun", 1) := by
    norm_num [scoresSun, maxPair, List.foldl]
  have hmaxv : maxVal scoresSun = 1 := by
    norm_num [scoresSun, maxVal, List.foldl]
  have hcur : scoreLookup scoresSun b.evolution_path = 1 := by
    rw [hpath]
    rfl
  have hrate : dictGetD cfgDefault.evolution.progression_rate (1/100) = 1/100 := rfl
  have hgoal : dictGetD cfgDefault.evolution.stage_goal 1 = 1 := rfl
  have hc : ¬ (b.evolution_prog + dictGetD cfgDefault.evolution.progression_rate
      (1/100) * max (maxVal scoresSun) (1/10) ≥ dictGetD cfgDefault.evolution.stage_goal 1 ∧
      b.evolution_stage < 4) := by
    rw [hmaxv, hrate, hgoal]
    intro hcontra
    have h1 := hcontra.1
    rw [show max (1 : ℚ) (1/10) = 1 from by norm_num] at h1
    rw [mul_one] at h1
    linarith
  rw [if_neg hc, hmax, hcur]
  rw [if_neg (by norm_num : ¬ ((("sun", (1 : ℚ))).2 > 1 + 1/5))]
  rw [hmaxv, hrate]
  rw [show max (1 : ℚ) (1/10) = 1 from by norm_num, mul_one]

theorem iter_update_evolution_sun (n : ℕ) : ∀ b : Beast,
    b.evolution_path = "sun" → b.evolution_prog + n/100 < 1 →
    iter_update_evolution cfgDefault envSun n b =
      Except.ok { b with evolution_prog := b.evolution_prog + n/100 } := by
  induction n with
  | zero =>
    intro b hb hlt
    simp [iter_update_evolution]
  | succ n ih =>
    intro b hb hlt
    have hn : (0 : ℚ) ≤ n := by positivity
    have hcast : ((n + 1 : ℕ) : ℚ) = (n : ℚ) + 1 := by push_cast; ring
    have hstep := update_evolution_sun_step b hb (by
      rw [hcast] at hlt
      linarith)
    show (update_evolution cfgDefault envSun b >>=
      iter_update_evolution cfgDefault envSun n) = _
    rw [hstep, ok_bind]
    rw [ih { b with evolution_prog := b.evolution_prog + 1/100 } hb (by
      show b.evolution_prog + 1/100 + (n : ℚ)/100 < 1
      rw [hcast] at hlt
      linarith)]
    congr 2
    rw [hcast]
    ring

/-- C6: each `update_evolution` call adds exactly
`progression_rate × max(best_score, 0.1)` to `evolution_prog` (with the
increment applied before the stage-advance reset, which zeroes it); and over
10 consecutive sun-favoring ticks from progression 0 the progression is
non-decreasing with a strict overall increase. -/
theorem c6_progression_increment (cfg : Config) (env : EnvFeatures) (b : Beast)
    (scores : List (String × ℚ)) (b' : Beast)
    (h1 : exposure_scores cfg env = Except.ok scores)
    (h2 : update_evolution cfg env b = Except.ok b') :
    (b'.evolution_prog =
      (if b.evolution_prog + dictGetD cfg.evolution.progression_rate (1/100) *
            max (maxVal scores) (1/10) ≥ dictGetD cfg.evolution.stage_goal 1 ∧
            b.evolution_stage < 4 then
        0
      else
        b.evolution_prog + dictGetD cfg.evolution.progression_rate (1/100) *
          max (maxVal scores) (1/10))) ∧
    (∀ i : ℕ, i < 10 →
      prog_after cfgDefault envSun (create_default_beast 0) i ≤
        prog_after cfgDefault envSun (create_default_beast 0) (i + 1)) ∧
    prog_after cfgDefault envSun (create_default_beast 0) 0 <
      prog_after cfgDefault envSun (create_default_beast 0) 10 := by
  have h0 : (create_default_beast 0).evolution_prog = 0 := by
    norm_num [create_default_beast, Beast.postInit]
  have hpa : ∀ i : ℕ, i ≤ 10 →
      prog_after cfgDefault envSun (create_default_beast 0) i = (i : ℚ)/100 := by
    intro i hi
    have hiq : (i : ℚ) ≤ 10 := by exact_mod_cast hi
    have hit := iter_update_evolution_sun i (create_default_beast 0) rfl
      (by rw [h0]; linarith)
    simp only [prog_after, hit, h0]
    norm_num
  refine ⟨update_evolution_prog_eq cfg env b scores b' h1 h2, ?_, ?_⟩
  · intro i hi
    rw [hpa i (le_of_lt hi), hpa (i + 1) hi]
    have : (i : ℚ) ≤ (i : ℚ) + 1 := by linarith
    push_cast
    linarith
  · rw [hpa 0 (by norm_num), hpa 10 le_rfl]
    norm_num

/-- C6 witness: over the 10 sun-favoring ticks the progression strictly
increases overall. -/
theorem c6_witness :
    prog_after cfgDefault envSun (create_default_beast 0) 0 <
      prog_after cfgDefault envSun (create_default_beast 0) 10 :=
  (c6_progression_increment cfgDefault envSun (create_default_beast 0) scoresSun
    beastSun1 exposure_scores_sun update_evolution_sun).2.2

/-- C7: `generate_tasks` returns at most 3 descriptors, and its action list
is exactly the spec's ordered generation (need tasks in iteration order, then
explorer, playful, brightness) truncated to the first three; with needs
{hunger:20, rest:80, social:80, hygiene:80} the result contains `feed`. -/
theorem c7_generate_tasks (b : Beast) (env : EnvFeatures) :
    (generate_tasks b env).length ≤ 3 ∧
    (generate_tasks b env).map TaskDescriptor.action =
      (spec_task_actions b env).take 3 ∧
    (b.needs = { hunger := 20, rest := 80, social := 80, hygiene := 80 } →
      "feed" ∈ (generate_tasks b env).map TaskDescriptor.action) := by
  have hmap : (generate_tasks b env).map TaskDescriptor.action =
      (spec_task_actions b env).take 3 := by
    simp only [generate_tasks, spec_task_actions, needTask,
      show (("hunger" : String) == "hunger") = true from rfl,
      show (("rest" : String) == "hunger") = false from rfl,
      show (("rest" : String) == "rest") = true from rfl,
      show (("social" : String) == "hunger") = false from rfl,
      show (("social" : String) == "rest") = false from rfl,
      show (("social" : String) == "social") = true from rfl,
      show (("hygiene" : String) == "hunger") = false from rfl,
      show (("hygiene" : String) == "rest") = false from rfl,
      show (("hygiene" : String) == "social") = false from rfl,
      show (("hygiene" : String) == "hygiene") = true from rfl,
      Bool.false_eq_true, eq_self_iff_true, if_true, if_false]
    rw [List.map_take]
    congr 1
    simp only [List.map_append, apply_ite (List.map TaskDescriptor.action),
      List.map_cons, List.map_nil]
  refine ⟨?_, hmap, ?_⟩
  · simp only [generate_tasks]
    exact List.length_take_le 3 _
  · intro hn
    rw [hmap]
    simp only [spec_task_actions, hn]
    norm_num

/-- C7 witness: needs {hunger:20, rest:80, social:80, hygiene:80} produce a
task list containing the `feed` action. -/
theorem c7_witness :
    "feed" ∈ (generate_tasks beastHungry envCalm).map TaskDescriptor.action :=
  (c7_generate_tasks beastHungry envCalm).2.2 rfl

/-- C8: the rest-need drift rate is the configured base rate times 1.2 when
lux exceeds the bright threshold and times 1.3 when motion exceeds the
active threshold, composing to ×1.56 (= 39/25) when both hold and ×1.0 when
neither. -/
theorem c8_rest_drift_multipliers (cfg : Config) (env : EnvFeatures) (b : Beast)
    (base lb ma : ℚ) (hlb : cfg.thresholds.lux_bright = some lb)
    (hma : cfg.thresholds.motion_active_g = some ma) :
    calculate_drift_rate cfg "rest" base env b =
      Except.ok (base * (if env.lux > lb then 6/5 else 1) *
        (if env.motion_rms_g > ma then 13/10 else 1)) ∧
    (env.lux > lb → env.motion_rms_g > ma →
      calculate_drift_rate cfg "rest" base env b = Except.ok (base * (39/25))) ∧
    (¬ env.lux > lb → ¬ env.motion_rms_g > ma →
      calculate_drift_rate cfg "rest" base env b = Except.ok base) := by
  have hmain : calculate_drift_rate cfg "rest" base env b =
      Except.ok (base * (if env.lux > lb then 6/5 else 1) *
        (if env.motion_rms_g > ma then 13/10 else 1)) := by
    simp only [calculate_drift_rate, hlb, hma, dictGet_some, ok_bind,
      show (("rest" : String) == "hunger") = false from rfl,
      show (("rest" : String) == "rest") = true from rfl,
      Bool.false_eq_true, eq_self_iff_true, if_true, if_false]
    split_ifs <;> simp [pure_ok, mul_one]
  refine ⟨hmain, fun h1 h2 => ?_, fun h1 h2 => ?_⟩
  · rw [hmain, if_pos h1, if_pos h2]
    exact congrArg Except.ok (by ring)
  · rw [hmain, if_neg h1, if_neg h2]
    exact congrArg Except.ok (by ring)

/-- C8 witness: bright (lux 8000 > 5000) and active (motion 0.3 > 0.2)
conditions give drift `2 × 39/25`. -/
theorem c8_witness :
    calculate_drift_rate cfgDefault "rest" 2 envSun (create_default_beast 0) =
      Except.ok (2 * (39/25)) :=
  (c8_rest_drift_multipliers cfgDefault envSun (create_default_beast 0) 2 5000
    (1/5) rfl rfl).2.1 (by norm_num [envSun, envCalm])
    (by norm_num [envSun, envCalm])

/-- C9: for a beast whose `_last_fingerprint`/`_last_lux` attributes were
never assigned (as with the dataclass constructor and
`create_default_beast`), novelty detection holds iff the snapshot
fingerprint is non-empty or shake_events > 2 — the 50%-lux-change branch is
unreachable — and the social-drift ×0.8 slowdown reduces to the same
condition. -/
theorem c9_novelty_reduces (env : EnvFeatures) (b : Beast)
    (h1 : b.last_fingerprint = none) (h2 : b.last_lux = none) :
    (detect_novelty env b =
      (decide (env.ssid_fingerprint ≠ "") || decide (env.shake_events > 2))) ∧
    (∀ cfg base, calculate_drift_rate cfg "social" base env b =
      Except.ok (if env.ssid_fingerprint ≠ "" ∨ env.shake_events > 2 then
        base * (4/5)
      else base)) ∧
    (∀ now : ℚ, (create_default_beast now).last_fingerprint = none ∧
      (create_default_beast now).last_lux = none) := by
  have hnov : detect_novelty env b =
      (decide (env.ssid_fingerprint ≠ "") || decide (env.shake_events > 2)) := by
    simp only [detect_novelty, h1, h2, Option.getD]
    split_ifs <;> simp_all
  refine ⟨hnov, fun cfg base => ?_, fun now => ⟨rfl, rfl⟩⟩
  simp only [calculate_drift_rate,
    show (("social" : String) == "hunger") = false from rfl,
    show (("social" : String) == "rest") = false from rfl,
    show (("social" : String) == "social") = true from rfl,
    Bool.false_eq_true, eq_self_iff_true, if_true, if_false]
  rw [hnov, ← Bool.decide_or]
  by_cases hpq : env.ssid_fingerprint ≠ "" ∨ env.shake_events > 2 <;>
    simp [hpq, pure_ok]

/-- C9 witness: on the neutral snapshot (empty fingerprint, no shakes) the
default beast detects no novelty, matching the reduced condition. -/
theorem c9_witness :
    detect_novelty envCalm (create_default_beast 0) =
      (decide (envCalm.ssid_fingerprint ≠ "") ||
        decide (envCalm.shake_events > 2)) :=
  (c9_novelty_reduces envCalm (create_default_beast 0) rfl rfl).1

/-- C10: none of the state-engine operations writes the `energy` field, and
none of them writes `mood` (only the service loop's own assignment of the
`infer_mood` result does); hence the full per-tick pipeline preserves
`energy`.  (`infer_mood` and `generate_tasks` return a mood string and a
task list respectively, mutating nothing.) -/
theorem c10_energy_frame (cfg : Config) (env : EnvFeatures) (b : Beast)
    (acts : Actions) (t : ℚ) :
    (∀ b', update_needs cfg b env acts t = Except.ok b' →
      b'.energy = b.energy ∧ b'.mood = b.mood) ∧
    (∀ b', tick_traits cfg env b acts = Except.ok b' →
      b'.energy = b.energy ∧ b'.mood = b.mood) ∧
    (∀ b', update_evolution cfg env b = Except.ok b' →
      b'.energy = b.energy ∧ b'.mood = b.mood) ∧
    (∀ b', run_tick cfg env b t = Except.ok b' → b'.energy = b.energy) := by
  refine ⟨fun b' h => update_needs_frame cfg b env acts t b' h,
    fun b' h => tick_traits_frame cfg env b acts b' h,
    fun b' h => ⟨(update_evolution_frame cfg env b b' h).1,
      (update_evolution_frame cfg env b b' h).2.1⟩, ?_⟩
  intro b' h
  simp only [run_tick] at h
  obtain ⟨m, -, h⟩ := except_bind_ok h
  obtain ⟨b2, hb2, h⟩ := except_bind_ok h
  obtain ⟨b3, hb3, h⟩ := except_bind_ok h
  have e1 := (update_needs_frame cfg _ env [] t b2 hb2).1
  have e2 := (tick_traits_frame cfg env b2 [] b3 hb3).1
  have e3 := (update_evolution_frame cfg env b3 b' h).1
  rw [e3, e2, e1]

/-- C10 witness: one `update_evolution` tick on the default beast leaves
energy (100) and mood ("calm") untouched. -/
theorem c10_witness :
    beastSun1.energy = (create_default_beast 0).energy ∧
    beastSun1.mood = (create_default_beast 0).mood :=
  (c10_energy_frame cfgDefault envSun (create_default_beast 0) [] 0).2.2.1
    beastSun1 update_evolution_sun
